import Mathlib

/-!
Verification of `src/templates/template-vision-segmentation/main.py`, a
code-generation template for a distributed image-segmentation training
script.  The script is shallowly embedded: its pure helper functions become
Lean functions, the body of `run` becomes an explicit list of actions
(`run_trace`), the template directives (`#::: if (...) :::#`) become boolean
generation flags, and the training loop driven by the external engine
library becomes an explicit event trace (`trainingRun`) following the
engine's documented event semantics (STARTED, EPOCH_STARTED,
ITERATION_COMPLETED with an `every` filter, EPOCH_COMPLETED).
-/

namespace VisionSegmentation

/-- Configuration fields of the parsed options object that the claims
depend on.  `output_dir` is the resolved run output directory (the script
reassigns `config.output_dir = setup_output_dir(...)` before using it). -/
structure Config where
  seed : Nat
  max_epochs : Nat
  train_epoch_length : Nat
  eval_epoch_length : Nat
  log_every_iters : Nat
  output_dir : String
  deriving Repr, DecidableEq

/-- Generation flags of the template directives: each one includes or
excludes a block of the generated script. -/
structure Flags where
  save_training : Bool
  save_evaluation : Bool
  patience : Bool
  terminate_on_nan : Bool
  timer : Bool
  limit_sec : Bool
  logger : Bool
  deriving Repr, DecidableEq

/-- Runtime facts of one `run(local_rank, config)` invocation that the
script branches on: the process rank, whether the experiment logger object
is a `WandBLogger` instance, whether it is truthy, and whether the two
checkpoint handlers returned by `setup_handlers` are not `None`. -/
structure RunCtx where
  rank : Nat
  expLoggerIsWandB : Bool
  expLoggerTruthy : Bool
  ckptTrainPresent : Bool
  ckptEvalPresent : Bool
  deriving Repr, DecidableEq

/-- The directive `it.save_training || it.save_evaluation || it.patience ||
it.terminate_on_nan || it.timer || it.limit_sec` guarding the
handler-setup block (and the checkpoint-name logging block). -/
def anyHandlerFlag (f : Flags) : Bool :=
  f.save_training || f.save_evaluation || f.patience ||
    f.terminate_on_nan || f.timer || f.limit_sec

/-- Keys of the `to_save_train` object of the generated script:
the dict `{model, optimizer, trainer, lr_scheduler}` when
`it.save_training` is set, `None` otherwise. -/
def to_save_train (f : Flags) : Option (List String) :=
  if f.save_training then
    some ["model", "optimizer", "trainer", "lr_scheduler"]
  else none

/-- Keys of the `to_save_eval` object of the generated script:
the dict `{"model": model}` when `it.save_evaluation` is set, `None`
otherwise. -/
def to_save_eval (f : Flags) : Option (List String) :=
  if f.save_evaluation then some ["model"] else none

/-- The custom event filter gating validation-image logging:
`c1 = val_iteration == len(dataloader_eval) // 2`,
`c2 = trainer.state.epoch % 3 == 0`, `c2 |= trainer.state.epoch ==
config.max_epochs`, `return c1 and c2`. -/
def custom_event_filter (dataloaderEvalLen maxEpochs trainerEpoch valIteration : Nat) : Bool :=
  let c1 := valIteration == dataloaderEvalLen / 2
  let c2 := trainerEpoch % 3 == 0
  let c2 := c2 || (trainerEpoch == maxEpochs)
  c1 && c2

/-- Outcome of the experiment-logger teardown branch. -/
inductive ShutdownAction where
  | finish
  | close
  | noop
  deriving Repr, DecidableEq

/-- The teardown branch on rank 0: `if isinstance(exp_logger, WandBLogger):
exp_logger.finish()  elif exp_logger: exp_logger.close()`. -/
def shutdown_exp_logger (isWandB truthy : Bool) : ShutdownAction :=
  if isWandB then .finish
  else if truthy then .close
  else .noop

/-- One observable step of the body of `run`, in source order. -/
inductive Action where
  | manualSeed (seed : Nat)
  | setupOutputDir
  | setupData
  | buildModel
  | buildOptimizer
  | buildLossFn
  | buildLrScheduler
  | setupMetrics
  | setupTrainer
  | setupEvaluator
  | setupLogging
  | writeFile (path : String)
  | registerSetEpoch
  | setupHandlers (toSaveTrainKeys toSaveEvalKeys : Option (List String))
  | setupExpLogging
  | attachImageLogger
  | registerTrainLog
  | registerEpochEval
  | registerStartedEval
  | trainerRun
  | expLoggerFinish
  | expLoggerClose
  | logCkptTrain
  | logCkptEval
  deriving Repr, DecidableEq

/-- Teardown actions produced by the shutdown branch. -/
def shutdownActions (isWandB truthy : Bool) : List Action :=
  match shutdown_exp_logger isWandB truthy with
  | .finish => [.expLoggerFinish]
  | .close => [.expLoggerClose]
  | .noop => []

/-- The body of `run(local_rank, config)` as the sequence of actions it
performs, with every template directive decided by `f` and every runtime
branch decided by `ctx`. -/
def run_trace (cfg : Config) (f : Flags) (ctx : RunCtx) : List Action :=
  [.manualSeed (cfg.seed + ctx.rank), .setupOutputDir, .setupData,
    .buildModel, .buildOptimizer, .buildLossFn, .buildLrScheduler,
    .setupMetrics, .setupTrainer, .setupEvaluator, .setupLogging,
    .writeFile (cfg.output_dir ++ "/config-lock.yaml"), .registerSetEpoch]
  ++ (if anyHandlerFlag f then
        [.setupHandlers (to_save_train f) (to_save_eval f)]
      else [])
  ++ (if f.logger && (ctx.rank == 0) then
        [.setupExpLogging, .attachImageLogger]
      else [])
  ++ [.registerTrainLog, .registerEpochEval, .registerStartedEval, .trainerRun]
  ++ (if f.logger && (ctx.rank == 0) then
        shutdownActions ctx.expLoggerIsWandB ctx.expLoggerTruthy
      else [])
  ++ (if anyHandlerFlag f then
        (if ctx.ckptTrainPresent then [.logCkptTrain] else [])
          ++ (if ctx.ckptEvalPresent then [.logCkptEval] else [])
      else [])

/-- Phase number of an action, following the phase order stated by the
spec: dataset setup, model/optimizer/loss/scheduler construction, metric
setup, trainer/evaluator construction, event-handler registration, the
training run loop, teardown.  Seeding and output-dir creation precede all
phases; logging setup and the config-lock write sit between construction
and handler registration. -/
def phase : Action → Nat
  | .manualSeed _ => 0
  | .setupOutputDir => 0
  | .setupData => 10
  | .buildModel => 20
  | .buildOptimizer => 20
  | .buildLossFn => 20
  | .buildLrScheduler => 20
  | .setupMetrics => 30
  | .setupTrainer => 40
  | .setupEvaluator => 40
  | .setupLogging => 45
  | .writeFile _ => 45
  | .registerSetEpoch => 50
  | .setupHandlers _ _ => 50
  | .setupExpLogging => 50
  | .attachImageLogger => 50
  | .registerTrainLog => 50
  | .registerEpochEval => 50
  | .registerStartedEval => 50
  | .trainerRun => 60
  | .expLoggerFinish => 70
  | .expLoggerClose => 70
  | .logCkptTrain => 70
  | .logCkptEval => 70

/-- Recognizes the file-writing action. -/
def isWriteFile : Action → Bool
  | .writeFile _ => true
  | _ => false

/-- Recognizes actions that interact with the experiment tracker:
creating the logger, attaching the image handler, finishing or closing. -/
def isExpAction : Action → Bool
  | .setupExpLogging => true
  | .attachImageLogger => true
  | .expLoggerFinish => true
  | .expLoggerClose => true
  | _ => false

/-! ## The training loop

The script registers: `log_metrics(tag="train")` on
`ITERATION_COMPLETED(every=config.log_every_iters)`, an
`EPOCH_COMPLETED(every=1)` handler that logs the timer (when the handler
block is generated and the timer exists), runs the evaluator with
`epoch_length=config.eval_epoch_length`, and calls
`log_metrics(evaluator, "eval")`, and a `STARTED` handler running the
evaluator once as a sanity check.  The engine fires `STARTED`, then for
each epoch `EPOCH_STARTED`, `epoch_length` iterations (each
`ITERATION_COMPLETED`, with the `every=N` filter firing when the global
iteration count is divisible by `N`), then `EPOCH_COMPLETED`. -/

/-- One observable event of the training loop. `trainLog n` is the call
`log_metrics(trainer, tag="train")` fired at global iteration `n`;
`evalLog` is the call `log_metrics(evaluator, "eval")`. -/
inductive REvent where
  | samplerSetEpoch (e : Nat)
  | trainIter (n : Nat)
  | trainLog (n : Nat)
  | timerLog
  | evalRun (epochLength : Nat)
  | evalLog
  deriving Repr, DecidableEq

/-- Events of one training iteration with global iteration number `n`:
the iteration itself, then the periodic train-metrics log when the
`every` filter fires (`n % every == 0`). -/
def iterTrace (every n : Nat) : List REvent :=
  [.trainIter n] ++ (if n % every == 0 then [.trainLog n] else [])

/-- Events of training epoch `e` (1-based): the EPOCH_STARTED sampler
handler, the iterations (global numbers `(e-1)*L+1 .. e*L`), then the
EPOCH_COMPLETED handler: optional timer log, the evaluator run with
`epoch_length=config.eval_epoch_length`, and the eval-metrics log. -/
def epochTrace (cfg : Config) (hasTimer : Bool) (e : Nat) : List REvent :=
  [.samplerSetEpoch (e - 1)]
  ++ (List.range' ((e - 1) * cfg.train_epoch_length + 1)
        cfg.train_epoch_length).flatMap (iterTrace cfg.log_every_iters)
  ++ (if hasTimer then [.timerLog] else [])
  ++ [.evalRun cfg.eval_epoch_length, .evalLog]

/-- The whole `trainer.run(...)` call: the STARTED sanity-check evaluator
run, then the epochs `1 .. config.max_epochs`. -/
def trainingRun (cfg : Config) (hasTimer : Bool) : List REvent :=
  [.evalRun cfg.eval_epoch_length]
  ++ (List.range cfg.max_epochs).flatMap (fun e => epochTrace cfg hasTimer (e + 1))

/-- Extracts the global iteration number of a train-metrics log event. -/
def trainLogNum : REvent → Option Nat
  | .trainLog n => some n
  | _ => none

/-- Recognizes evaluator runs. -/
def isEvalRun : REvent → Bool
  | .evalRun _ => true
  | _ => false

/-- Recognizes eval-metrics log events. -/
def isEvalLog : REvent → Bool
  | .evalLog => true
  | _ => false

/-- Recognizes training iterations. -/
def isTrainIter : REvent → Bool
  | .trainIter _ => true
  | _ => false

/-! ## The entrypoint `main` -/

/-- The distributed launch mode selected at generation time
(`it.dist === 'spawn'` or the pre-launched alternative). -/
inductive DistMode where
  | spawn
  | prelaunched
  deriving Repr, DecidableEq

/-- Generation-time options deciding which launcher call is emitted. -/
structure GenOpts where
  dist : DistMode
  nproc_per_node : Bool
  nnodes : Nat
  master_addr : Bool
  master_port : Bool
  deriving Repr, DecidableEq

/-- Keyword arguments passed to `idist.Parallel` besides the backend, as
emitted by the template: the five multi-node kwargs when
`it.nproc_per_node && it.nnodes > 1 && it.master_addr && it.master_port`,
just `nproc_per_node` when only `it.nproc_per_node`, an undefined `kwargs`
(`none`) in the remaining spawn case, and no kwargs at all in
pre-launched mode. -/
def parallel_kwargs (g : GenOpts) : Option (List String) :=
  match g.dist with
  | .spawn =>
      if g.nproc_per_node && decide (1 < g.nnodes) && g.master_addr && g.master_port then
        some ["nproc_per_node", "nnodes", "node_rank", "master_addr", "master_port"]
      else if g.nproc_per_node then
        some ["nproc_per_node"]
      else none
  | .prelaunched => some []

/-- Multi-node spawn mode: the first spawn directive's condition holds. -/
def multiNodeSpawn (g : GenOpts) : Prop :=
  g.dist = .spawn ∧ g.nproc_per_node = true ∧ 1 < g.nnodes ∧
    g.master_addr = true ∧ g.master_port = true

/-- Single-node spawn mode: spawn with `it.nproc_per_node` set but not
the full multi-node condition. -/
def singleNodeSpawn (g : GenOpts) : Prop :=
  g.dist = .spawn ∧ g.nproc_per_node = true ∧ ¬ multiNodeSpawn g

/-! ## Claims -/

/-- C1: the validation-image logging event filter returns true exactly when
the evaluation iteration equals the middle evaluation batch
(`val_iteration == len(dataloader_eval) // 2`) and the trainer's current
epoch is a multiple of 3 or equals `config.max_epochs`; for every other
pair it returns false. -/
theorem claim_C1 (dataloaderEvalLen maxEpochs trainerEpoch valIteration : Nat) :
    custom_event_filter dataloaderEvalLen maxEpochs trainerEpoch valIteration = true ↔
      (valIteration = dataloaderEvalLen / 2 ∧
        (trainerEpoch % 3 = 0 ∨ trainerEpoch = maxEpochs)) := by
  simp [custom_event_filter]

/-- C2: the rank-0 shutdown branch special-cases exactly one backend: a
`WandBLogger` gets `finish()`, every other truthy logger gets `close()`,
and nothing else happens; moreover in the whole `run` trace the
finish/close actions occur exactly when the logger block is generated, the
rank is 0, and the corresponding branch of `shutdown_exp_logger` is
taken. -/
theorem claim_C2 (cfg : Config) (f : Flags) (ctx : RunCtx) (w t : Bool) :
    (shutdown_exp_logger w t = .finish ↔ w = true) ∧
    (shutdown_exp_logger w t = .close ↔ (w = false ∧ t = true)) ∧
    (shutdown_exp_logger w t = .noop ↔ (w = false ∧ t = false)) ∧
    (Action.expLoggerFinish ∈ run_trace cfg f ctx ↔
      (f.logger = true ∧ ctx.rank = 0 ∧ ctx.expLoggerIsWandB = true)) ∧
    (Action.expLoggerClose ∈ run_trace cfg f ctx ↔
      (f.logger = true ∧ ctx.rank = 0 ∧ ctx.expLoggerIsWandB = false ∧
        ctx.expLoggerTruthy = true)) := by
  refine ⟨?_, ?_, ?_, ?_, ?_⟩
  · cases w <;> cases t <;> simp [shutdown_exp_logger]
  · cases w <;> cases t <;> simp [shutdown_exp_logger]
  · cases w <;> cases t <;> simp [shutdown_exp_logger]
  · cases h1 : anyHandlerFlag f <;> cases hl : f.logger <;>
      cases hr : ctx.rank == 0 <;> cases hw : ctx.expLoggerIsWandB <;>
      cases ht : ctx.expLoggerTruthy <;> cases h5 : ctx.ckptTrainPresent <;>
      cases h6 : ctx.ckptEvalPresent <;>
      simp_all [run_trace, shutdownActions, shutdown_exp_logger]
  · cases h1 : anyHandlerFlag f <;> cases hl : f.logger <;>
      cases hr : ctx.rank == 0 <;> cases hw : ctx.expLoggerIsWandB <;>
      cases ht : ctx.expLoggerTruthy <;> cases h5 : ctx.ckptTrainPresent <;>
      cases h6 : ctx.ckptEvalPresent <;>
      simp_all [run_trace, shutdownActions, shutdown_exp_logger]

/-- C3: the handler-setup block is emitted iff at least one of the six
flags is set; `to_save_train` is the model/optimizer/trainer/lr_scheduler
dict exactly when `save_training` is set and `None` otherwise;
`to_save_eval` is the model dict exactly when `save_evaluation` is set and
`None` otherwise. -/
theorem claim_C3 (cfg : Config) (f : Flags) (ctx : RunCtx) :
    (Action.setupHandlers (to_save_train f) (to_save_eval f) ∈ run_trace cfg f ctx ↔
        anyHandlerFlag f = true) ∧
    (anyHandlerFlag f = true ↔
        (f.save_training = true ∨ f.save_evaluation = true ∨ f.patience = true ∨
          f.terminate_on_nan = true ∨ f.timer = true ∨ f.limit_sec = true)) ∧
    (to_save_train f = some ["model", "optimizer", "trainer", "lr_scheduler"] ↔
        f.save_training = true) ∧
    (to_save_train f = none ↔ f.save_training = false) ∧
    (to_save_eval f = some ["model"] ↔ f.save_evaluation = true) ∧
    (to_save_eval f = none ↔ f.save_evaluation = false) := by
  refine ⟨?_, ?_, ?_, ?_, ?_, ?_⟩
  · cases h1 : anyHandlerFlag f <;> cases hl : f.logger <;>
      cases hr : ctx.rank == 0 <;> cases hw : ctx.expLoggerIsWandB <;>
      cases ht : ctx.expLoggerTruthy <;> cases h5 : ctx.ckptTrainPresent <;>
      cases h6 : ctx.ckptEvalPresent <;>
      simp_all [run_trace, shutdownActions, shutdown_exp_logger]
  · simp [anyHandlerFlag, Bool.or_eq_true, or_assoc]
  · cases h : f.save_training <;> simp [to_save_train, h]
  · cases h : f.save_training <;> simp [to_save_train, h]
  · cases h : f.save_evaluation <;> simp [to_save_eval, h]
  · cases h : f.save_evaluation <;> simp [to_save_eval, h]

/-- C4: in multi-node spawn mode the launcher receives exactly the five
kwargs nproc_per_node, nnodes, node_rank, master_addr, master_port; in
single-node spawn mode exactly nproc_per_node; in pre-launched mode no
kwargs at all. -/
theorem claim_C4 (g : GenOpts) :
    (multiNodeSpawn g → parallel_kwargs g =
        some ["nproc_per_node", "nnodes", "node_rank", "master_addr", "master_port"]) ∧
    (singleNodeSpawn g → parallel_kwargs g = some ["nproc_per_node"]) ∧
    (g.dist = .prelaunched → parallel_kwargs g = some []) := by
  obtain ⟨d, np, nn, ma, mp⟩ := g
  refine ⟨?_, ?_, ?_⟩
  · rintro ⟨hd, hnp, hnn, hma, hmp⟩
    subst hd; subst hnp; subst hma; subst hmp
    simp [parallel_kwargs, hnn]
  · rintro ⟨hd, hnp, hnot⟩
    subst hd; subst hnp
    have hcond : (decide (1 < nn) && ma && mp) = false := by
      by_contra hc
      rw [Bool.not_eq_false] at hc
      simp only [Bool.and_eq_true, decide_eq_true_eq] at hc
      exact hnot ⟨rfl, rfl, hc.1.1, hc.1.2, hc.2⟩
    simp [parallel_kwargs, hcond]
  · rintro hd; subst hd; rfl

/-- Witness for C4 at one concrete generation choice per launch mode. -/
theorem claim_C4_witness :
    parallel_kwargs ⟨.spawn, true, 2, true, true⟩ =
        some ["nproc_per_node", "nnodes", "node_rank", "master_addr", "master_port"] ∧
    parallel_kwargs ⟨.spawn, true, 1, true, true⟩ = some ["nproc_per_node"] ∧
    parallel_kwargs ⟨.prelaunched, true, 1, true, true⟩ = some [] :=
  ⟨(claim_C4 _).1 ⟨rfl, rfl, by decide, rfl, rfl⟩,
    (claim_C4 _).2.1 ⟨rfl, rfl, fun h => absurd h.2.2.1 (by decide)⟩,
    (claim_C4 _).2.2 rfl⟩

/-- C8: the very first action of every run is seeding with
`config.seed + rank`, and two runs of the same configuration start with
the same seed action exactly when their ranks are equal — so distinct
ranks always use distinct seeds and a repeated run of the same rank reuses
the same seed. -/
theorem claim_C8 (cfg : Config) (f f' : Flags) (ctx ctx' : RunCtx) :
    (run_trace cfg f ctx).head? = some (.manualSeed (cfg.seed + ctx.rank)) ∧
    ((run_trace cfg f ctx).head? = (run_trace cfg f' ctx').head? ↔
      ctx.rank = ctx'.rank) := by
  constructor
  · rfl
  · show some (Action.manualSeed (cfg.seed + ctx.rank)) =
        some (Action.manualSeed (cfg.seed + ctx'.rank)) ↔ ctx.rank = ctx'.rank
    simp

/-! ## Helper lemmas about the training-loop trace -/

/-- The train-metrics logs of one iteration: `[n]` when the every-filter
fires at global iteration `n`, nothing otherwise. -/
lemma filterMap_trainLogNum_iterTrace (every n : Nat) :
    (iterTrace every n).filterMap trainLogNum =
      if n % every == 0 then [n] else [] := by
  unfold iterTrace
  split <;> simp [trainLogNum]

/-- The train-metrics logs of a block of iterations are exactly the
iteration numbers at which the every-filter fires. -/
lemma filterMap_trainLogNum_flatMap (every : Nat) (L : List Nat) :
    (L.flatMap (iterTrace every)).filterMap trainLogNum =
      L.filter (fun n => n % every == 0) := by
  induction L with
  | nil => rfl
  | cons a L ih =>
    rw [List.flatMap_cons, List.filterMap_append, filterMap_trainLogNum_iterTrace,
      ih, List.filter_cons]
    split <;> simp

/-- A block of iterations contains no evaluator events. -/
lemma no_eval_in_iter_flatMap (every : Nat) (L : List Nat) (ev : REvent) :
    ev ∈ L.flatMap (iterTrace every) → isEvalRun ev = false ∧ isEvalLog ev = false := by
  intro h
  rw [List.mem_flatMap] at h
  obtain ⟨n, _, hmem⟩ := h
  unfold iterTrace at hmem
  rcases List.mem_append.1 hmem with h' | h'
  · simp at h'
    subst h'
    exact ⟨rfl, rfl⟩
  · split at h' <;> simp at h'
    subst h'
    exact ⟨rfl, rfl⟩

/-- The train-metrics logs of epoch `e` are the firing iterations among
the epoch's global iteration numbers. -/
lemma filterMap_trainLogNum_epochTrace (cfg : Config) (t : Bool) (e : Nat) :
    (epochTrace cfg t e).filterMap trainLogNum =
      (List.range' ((e - 1) * cfg.train_epoch_length + 1)
          cfg.train_epoch_length).filter
        (fun n => n % cfg.log_every_iters == 0) := by
  unfold epochTrace
  cases t <;>
    simp [List.filterMap_append, filterMap_trainLogNum_flatMap, trainLogNum]

/-- Gluing the iteration ranges of `m` epochs with the next epoch's
range. -/
lemma range'_epoch_glue (L m : Nat) :
    List.range' 1 (m * L) ++ List.range' (m * L + 1) L =
      List.range' 1 ((m + 1) * L) := by
  have h := List.range'_append 1 (m * L) L 1
  rw [one_mul, Nat.add_comm 1 (m * L)] at h
  have hL : (m + 1) * L = L + m * L := by ring
  rw [hL]
  exact h

/-- The train-metrics logs of the first `m` epochs are exactly the firing
iterations among `1 .. m * L`. -/
lemma filterMap_trainLogNum_epochs (cfg : Config) (t : Bool) : ∀ m : Nat,
    ((List.range m).flatMap (fun e => epochTrace cfg t (e + 1))).filterMap
        trainLogNum =
      (List.range' 1 (m * cfg.train_epoch_length)).filter
        (fun n => n % cfg.log_every_iters == 0) := by
  intro m
  induction m with
  | zero => simp
  | succ m ih =>
    rw [List.range_succ, List.flatMap_append, List.filterMap_append, ih,
      List.flatMap_cons, List.flatMap_nil, List.append_nil,
      filterMap_trainLogNum_epochTrace]
    simp only [Nat.add_sub_cancel]
    rw [← List.filter_append, range'_epoch_glue]

/-- Each epoch's trace splits as a head with no evaluator events followed
by the evaluator run and the eval-metrics log. -/
lemma epochTrace_split (cfg : Config) (t : Bool) (e : Nat) :
    ∃ pre, epochTrace cfg t e =
        pre ++ [.evalRun cfg.eval_epoch_length, .evalLog] ∧
      pre.countP isEvalRun = 0 ∧ pre.countP isEvalLog = 0 := by
  refine ⟨[.samplerSetEpoch (e - 1)]
      ++ (List.range' ((e - 1) * cfg.train_epoch_length + 1)
            cfg.train_epoch_length).flatMap (iterTrace cfg.log_every_iters)
      ++ (if t then [.timerLog] else []), ?_, ?_, ?_⟩
  · simp [epochTrace]
  · rw [List.countP_append, List.countP_append]
    have h0 : ((List.range' ((e - 1) * cfg.train_epoch_length + 1)
        cfg.train_epoch_length).flatMap (iterTrace cfg.log_every_iters)).countP
          isEvalRun = 0 := by
      rw [List.countP_eq_zero]
      intro ev hev
      simp [(no_eval_in_iter_flatMap _ _ ev hev).1]
    rw [h0]
    cases t <;> simp [isEvalRun]
  · rw [List.countP_append, List.countP_append]
    have h0 : ((List.range' ((e - 1) * cfg.train_epoch_length + 1)
        cfg.train_epoch_length).flatMap (iterTrace cfg.log_every_iters)).countP
          isEvalLog = 0 := by
      rw [List.countP_eq_zero]
      intro ev hev
      simp [(no_eval_in_iter_flatMap _ _ ev hev).2]
    rw [h0]
    cases t <;> simp [isEvalLog]

/-- Each epoch's trace keeps exactly one evaluator run (with
`epoch_length = config.eval_epoch_length`) and one eval-metrics log. -/
lemma filter_eval_epochTrace (cfg : Config) (t : Bool) (e : Nat) :
    (epochTrace cfg t e).filter isEvalRun = [.evalRun cfg.eval_epoch_length] ∧
    (epochTrace cfg t e).filter isEvalLog = [.evalLog] := by
  obtain ⟨pre, hsplit, hrun, hlog⟩ := epochTrace_split cfg t e
  rw [hsplit]
  have hrun' : pre.filter isEvalRun = [] := by
    rw [List.filter_eq_nil_iff]
    exact List.countP_eq_zero.1 hrun
  have hlog' : pre.filter isEvalLog = [] := by
    rw [List.filter_eq_nil_iff]
    exact List.countP_eq_zero.1 hlog
  constructor
  · rw [List.filter_append, hrun']
    simp [isEvalRun]
  · rw [List.filter_append, hlog']
    simp [isEvalRun, isEvalLog]

/-- Over `m` epochs the evaluator-run events are `m` identical runs with
`epoch_length = config.eval_epoch_length`, and the eval-metrics logs are
`m` identical log calls. -/
lemma filter_eval_epochs (cfg : Config) (t : Bool) : ∀ m : Nat,
    ((List.range m).flatMap (fun e => epochTrace cfg t (e + 1))).filter
        isEvalRun = List.replicate m (.evalRun cfg.eval_epoch_length) ∧
    ((List.range m).flatMap (fun e => epochTrace cfg t (e + 1))).filter
        isEvalLog = List.replicate m .evalLog := by
  intro m
  induction m with
  | zero => simp
  | succ m ih =>
    rw [List.range_succ, List.flatMap_append, List.flatMap_cons,
      List.flatMap_nil, List.append_nil]
    rw [List.filter_append, List.filter_append, ih.1, ih.2,
      (filter_eval_epochTrace cfg t (m + 1)).1,
      (filter_eval_epochTrace cfg t (m + 1)).2]
    constructor <;> rw [List.replicate_succ']

/-- C5: every run writes exactly one file — the resolved configuration to
`config.output_dir / "config-lock.yaml"` — and this write happens after
logger setup and before the training run starts. -/
theorem claim_C5 (cfg : Config) (f : Flags) (ctx : RunCtx) :
    (run_trace cfg f ctx).filter isWriteFile =
        [.writeFile (cfg.output_dir ++ "/config-lock.yaml")] ∧
    ∃ pre post,
      run_trace cfg f ctx =
          pre ++ .writeFile (cfg.output_dir ++ "/config-lock.yaml") :: post ∧
        Action.setupLogging ∈ pre ∧ Action.trainerRun ∈ post := by
  constructor
  · cases h1 : anyHandlerFlag f <;> cases hl : f.logger <;>
      cases hr : ctx.rank == 0 <;> cases hw : ctx.expLoggerIsWandB <;>
      cases ht : ctx.expLoggerTruthy <;> cases h5 : ctx.ckptTrainPresent <;>
      cases h6 : ctx.ckptEvalPresent <;>
      simp_all [run_trace, shutdownActions, shutdown_exp_logger, isWriteFile]
  · refine ⟨[.manualSeed (cfg.seed + ctx.rank), .setupOutputDir, .setupData,
        .buildModel, .buildOptimizer, .buildLossFn, .buildLrScheduler,
        .setupMetrics, .setupTrainer, .setupEvaluator, .setupLogging],
      .registerSetEpoch ::
        ((if anyHandlerFlag f then
            [.setupHandlers (to_save_train f) (to_save_eval f)]
          else [])
        ++ ((if f.logger && (ctx.rank == 0) then
              [.setupExpLogging, .attachImageLogger]
            else [])
          ++ ([.registerTrainLog, .registerEpochEval, .registerStartedEval,
                .trainerRun]
            ++ ((if f.logger && (ctx.rank == 0) then
                  shutdownActions ctx.expLoggerIsWandB ctx.expLoggerTruthy
                else [])
              ++ (if anyHandlerFlag f then
                    (if ctx.ckptTrainPresent then [.logCkptTrain] else [])
                      ++ (if ctx.ckptEvalPresent then [.logCkptEval] else [])
                  else []))))), ?_, ?_, ?_⟩
    · simp [run_trace]
    · simp
    · simp

/-- C6: the phases of `run` occur in the stated fixed order for every
flag combination and runtime context — dataset setup, then model,
optimizer, loss and scheduler construction, then metric setup, then
trainer/evaluator construction, then event-handler registration, then the
training run, then teardown. -/
theorem claim_C6 (cfg : Config) (f : Flags) (ctx : RunCtx) :
    ((run_trace cfg f ctx).map phase).Chain' (· ≤ ·) := by
  cases h1 : anyHandlerFlag f <;> cases hl : f.logger <;>
    cases hr : ctx.rank == 0 <;> cases hw : ctx.expLoggerIsWandB <;>
    cases ht : ctx.expLoggerTruthy <;> cases h5 : ctx.ckptTrainPresent <;>
    cases h6 : ctx.ckptEvalPresent <;>
    simp_all [run_trace, shutdownActions, shutdown_exp_logger, phase]

/-- C10: experiment-tracker interaction is confined to rank 0: a process
with nonzero rank performs no tracker action at all, while on rank 0 with
the logger block generated the tracker is created and the image handler
attached. -/
theorem claim_C10 (cfg : Config) (f : Flags) (ctx : RunCtx) :
    (ctx.rank ≠ 0 → (run_trace cfg f ctx).countP isExpAction = 0) ∧
    (ctx.rank = 0 → f.logger = true →
      Action.setupExpLogging ∈ run_trace cfg f ctx ∧
        Action.attachImageLogger ∈ run_trace cfg f ctx) := by
  constructor
  · intro h
    have hr : (ctx.rank == 0) = false := by simp [h]
    cases h1 : anyHandlerFlag f <;> cases hl : f.logger <;>
      cases hw : ctx.expLoggerIsWandB <;>
      cases ht : ctx.expLoggerTruthy <;> cases h5 : ctx.ckptTrainPresent <;>
      cases h6 : ctx.ckptEvalPresent <;>
      simp_all [run_trace, shutdownActions, shutdown_exp_logger, isExpAction]
  · intro h hl
    have hr : (ctx.rank == 0) = true := by simp [h]
    constructor <;>
      (cases h1 : anyHandlerFlag f <;> cases hw : ctx.expLoggerIsWandB <;>
        cases ht : ctx.expLoggerTruthy <;> cases h5 : ctx.ckptTrainPresent <;>
        cases h6 : ctx.ckptEvalPresent <;>
        simp_all [run_trace, shutdownActions, shutdown_exp_logger])

/-- Witness for C10: a rank-1 process performs no tracker action; a rank-0
process with the logger block creates the tracker. -/
theorem claim_C10_witness :
    (run_trace ⟨0, 5, 4, 2, 2, "out"⟩ ⟨true, true, true, true, true, true, true⟩
        ⟨1, false, true, true, true⟩).countP isExpAction = 0 ∧
    Action.setupExpLogging ∈
      run_trace ⟨0, 5, 4, 2, 2, "out"⟩ ⟨true, true, true, true, true, true, true⟩
        ⟨0, false, true, true, true⟩ :=
  ⟨(claim_C10 _ _ _).1 (by decide),
    ((claim_C10 _ _ _).2 rfl rfl).1⟩

/-- C7: over the whole training run, the train-metrics log with tag
"train" fires exactly at the completed training iterations divisible by
`config.log_every_iters` (the engine's every-filter), and the eval-metrics
log with tag "eval" fires exactly once per training epoch, immediately
after that epoch's evaluator run. -/
theorem claim_C7 (cfg : Config) (hasTimer : Bool) :
    (trainingRun cfg hasTimer).filterMap trainLogNum =
      (List.range' 1 (cfg.max_epochs * cfg.train_epoch_length)).filter
        (fun n => n % cfg.log_every_iters == 0) ∧
    (trainingRun cfg hasTimer).filter isEvalLog =
      List.replicate cfg.max_epochs .evalLog ∧
    (∀ e : Nat, ∃ pre, epochTrace cfg hasTimer e =
        pre ++ [.evalRun cfg.eval_epoch_length, .evalLog] ∧
      pre.countP isEvalLog = 0) := by
  refine ⟨?_, ?_, ?_⟩
  · unfold trainingRun
    rw [List.filterMap_append, filterMap_trainLogNum_epochs]
    simp [trainLogNum, Nat.mul_comm]
  · unfold trainingRun
    rw [List.filter_append, (filter_eval_epochs cfg hasTimer cfg.max_epochs).2]
    simp [isEvalLog]
  · intro e
    obtain ⟨pre, hsplit, _, hlog⟩ := epochTrace_split cfg hasTimer e
    exact ⟨pre, hsplit, hlog⟩

/-- C9: the evaluator runs with `epoch_length = config.eval_epoch_length`
exactly once before any training iteration (the STARTED sanity check) and
exactly once at the end of each of the `config.max_epochs` training
epochs, and these `max_epochs + 1` runs are the only evaluator
invocations in the training run. -/
theorem claim_C9 (cfg : Config) (hasTimer : Bool) :
    (∃ rest, trainingRun cfg hasTimer =
        .evalRun cfg.eval_epoch_length :: rest) ∧
    (∀ e : Nat, ∃ pre, epochTrace cfg hasTimer e =
        pre ++ [.evalRun cfg.eval_epoch_length, .evalLog] ∧
      pre.countP isEvalRun = 0) ∧
    (trainingRun cfg hasTimer).filter isEvalRun =
      List.replicate (cfg.max_epochs + 1) (.evalRun cfg.eval_epoch_length) := by
  refine ⟨⟨_, rfl⟩, ?_, ?_⟩
  · intro e
    obtain ⟨pre, hsplit, hrun, _⟩ := epochTrace_split cfg hasTimer e
    exact ⟨pre, hsplit, hrun⟩
  · unfold trainingRun
    rw [List.filter_append, (filter_eval_epochs cfg hasTimer cfg.max_epochs).1]
    rw [List.replicate_succ]
    simp [isEvalRun]

end VisionSegmentation
